import Mathlib

/-!
Shallow embedding of the scoring engine of `src/pages/index.tsx`
(eye-interview-tracker): the instantaneous scorer `scoreFromDetections`,
the adaptive detection ladder inside `doDetection`, the session lifecycle
(`startInterview` / `stopInterview`), and — modelled from the spec, since the
aggregator file is not part of `src/` — the metrics aggregator.

Numbers are modelled with `ℚ` (JS numbers used here never overflow and the
program only relies on exact small arithmetic); JS `Math.round` is
`fun q => ⌊q + 1/2⌋`; a thrown-and-caught JS exception is `Except.error`.
-/

namespace EyeTracker

/-- JS `Math.round`: round half toward positive infinity. -/
def jsRound (q : ℚ) : ℤ := ⌊q + 1/2⌋

/-- A 2-D landmark position (`{x, y}` point from face-api.js). -/
structure Point where
  x : ℚ
  y : ℚ
deriving DecidableEq

/-- A bounding box `{x, y, width, height}`. -/
structure Box where
  x : ℚ
  y : ℚ
  width : ℚ
  height : ℚ
deriving DecidableEq

/-- Result of `detectSingleFace`: a confidence score and a box. -/
structure FaceDetection where
  score : ℚ
  box : Box
deriving DecidableEq

/-- The expression-probability bag attached to a detection.  A field is
`none` when that key is missing from the JS object (the source destructures
with `= 0` defaults, so a missing key is read as 0). -/
structure Expressions where
  neutral : Option ℚ
  happy : Option ℚ
  sad : Option ℚ
  angry : Option ℚ
  disgusted : Option ℚ
  fearful : Option ℚ
  surprised : Option ℚ
deriving DecidableEq

/-- The empty expressions object `\x7b\x7d` used as the fallback when the
expression sub-call fails or returns nothing. -/
def emptyExpressions : Expressions := ⟨none, none, none, none, none, none, none⟩

/-- A landmarks result (`landmarks[0]` in the source): the list of landmark
positions.  An entry is `none` when the detector produced a malformed value:
reading `.x` from it would throw in JS (the source guards this with
`try/catch`). -/
structure Landmarks where
  positions : List (Option Point)
deriving DecidableEq

/-- The combined detection object built by `doDetection`:
`\x7b detection, expressions, landmarks \x7d`. -/
structure Detection where
  detection : FaceDetection
  expressions : Expressions
  landmarks : Option Landmarks
deriving DecidableEq

/-- Reading a possibly-missing expression probability: the source's
destructuring default `= 0`. -/
def getExpr (o : Option ℚ) : ℚ := o.getD 0

/-- `positions.slice(27, 36)` — the nose landmarks. -/
def noseSlice (positions : List (Option Point)) : List (Option Point) :=
  (positions.drop 27).take 9

/-- The landmark-processing block of `scoreFromDetections` (the body of its
`try`), returning the signed horizontal offset `noseTip.x - faceCenter`.
`Except.error ()` models a thrown exception (malformed nose-tip entry);
`Except.ok none` means the block ran but produced no alignment value
(landmarks absent, or fewer than 2 nose points). -/
def alignmentTry (d : Detection) : Except Unit (Option ℚ) :=
  match d.landmarks with
  | none => Except.ok none
  | some lm =>
    let nose := noseSlice lm.positions
    if h : 2 ≤ nose.length then
      match nose.get ⟨nose.length / 2, by omega⟩ with
      | none => Except.error ()
      | some noseTip =>
        let faceCenter := d.detection.box.x + d.detection.box.width / 2
        Except.ok (some (noseTip.x - faceCenter))
    else Except.ok none

/-- The raw expression score before any alignment adjustment:
base 50, plus `neutral*25 + happy*15 + surprised*5`, minus
`(angry+sad+disgusted+fearful)*20`. -/
def exprRawScore (d : Detection) : ℚ :=
  50 + getExpr d.expressions.neutral * 25 + getExpr d.expressions.happy * 15
    + getExpr d.expressions.surprised * 5
    - (getExpr d.expressions.angry + getExpr d.expressions.sad
       + getExpr d.expressions.disgusted + getExpr d.expressions.fearful) * 20

/-- `scoreFromDetections` (src/pages/index.tsx lines 368–417): expression
weighting, guarded head-alignment adjustment (`+10` when the absolute offset
is `< 20`, `-5` when `> 40`, exceptions caught and ignored), then
`Math.max(10, Math.min(100, Math.round(score)))`. -/
def scoreFromDetections (d : Detection) : ℤ :=
  let score := exprRawScore d
  let score :=
    match alignmentTry d with
    | Except.error _ => score
    | Except.ok none => score
    | Except.ok (some offset) =>
      let alignment := |offset|
      if alignment < 20 then score + 10
      else if alignment > 40 then score - 5
      else score
  max 10 (min 100 (jsRound score))

/-- The expression-only score: what `scoreFromDetections` returns when no
alignment adjustment is applied. -/
def expressionOnlyScore (d : Detection) : ℤ :=
  max 10 (min 100 (jsRound (exprRawScore d)))

/-- The alignment offset the code makes available to the scorer: the signed
offset when the landmark block computes one, `none` when the block yields
nothing or throws. -/
def alignmentOffsetOf (d : Detection) : Option ℚ :=
  match alignmentTry d with
  | Except.ok (some o) => some o
  | _ => none

/-- Reference scorer written from the spec's words (claim C1): start from
base 50; add `neutral*25 + happy*15 + surprised*5`; subtract
`(angry+sad+disgusted+fearful)*20`; if an alignment offset is available,
add 10 when its magnitude is below 20 and subtract 5 when its magnitude
exceeds 40 (no adjustment otherwise); round to the nearest integer and
clamp to `[10, 100]`. -/
def specScore (neutral happy sad angry disgusted fearful surprised : ℚ)
    (alignmentOffset : Option ℚ) : ℤ :=
  let base : ℚ := 50 + neutral * 25 + happy * 15 + surprised * 5
      - (angry + sad + disgusted + fearful) * 20
  let adjusted : ℚ :=
    match alignmentOffset with
    | none => base
    | some o =>
      if |o| < 20 then base + 10
      else if |o| > 40 then base - 5
      else base
  max 10 (min 100 (jsRound adjusted))

/-- One entry of `detectFaceExpressions`' result array: an object carrying an
`expressions` bag. -/
structure ExpressionsEntry where
  expressions : Expressions
deriving DecidableEq

/-- The three face-api.js calls `doDetection` issues on one tick, as pure
outcomes: `Except.error ()` is a thrown (and caught) exception, `Except.ok`
carries the returned value.  `detectSingleFace` is indexed by the
`(inputSize, scoreThreshold)` option pair of the rung; its `ok none` is a
null detection result. -/
structure DetectorCalls where
  detectSingleFace : ℕ × ℚ → Except Unit (Option FaceDetection)
  detectFaceExpressions : Except Unit (List ExpressionsEntry)
  detectFaceLandmarks : Except Unit (List Landmarks)

/-- The fixed rung ladder of `doDetection`:
`inputSize 512 / threshold 0.5`, `416 / 0.4`, `320 / 0.3`, `224 / 0.2`. -/
def detectionOptions : List (ℕ × ℚ) :=
  [(512, 1/2), (416, 2/5), (320, 3/10), (224, 1/5)]

/-- Building the combined detection object once a face is confirmed:
`expressions?.[0]?.expressions || \x7b\x7d` (expression failure or empty
result degrades to the empty bag) and `landmarks?.[0] || null` (landmark
failure or empty result degrades to absent). -/
def combineAtRung (calls : DetectorCalls) (fd : FaceDetection) : Detection :=
  ⟨fd,
    match calls.detectFaceExpressions with
    | Except.error _ => emptyExpressions
    | Except.ok entries =>
      match entries.head? with
      | none => emptyExpressions
      | some entry => entry.expressions,
    match calls.detectFaceLandmarks with
    | Except.error _ => none
    | Except.ok ls => ls.head?⟩

/-- The rung loop of `doDetection`: walk the option list in order; a thrown
`detectSingleFace`, a null result, or a score below the rung's threshold
moves on to the next rung; the first accepted face stops the loop with the
combined detection. -/
def ladder (calls : DetectorCalls) : List (ℕ × ℚ) → Option Detection
  | [] => none
  | opt :: rest =>
    match calls.detectSingleFace opt with
    | Except.error _ => ladder calls rest
    | Except.ok none => ladder calls rest
    | Except.ok (some fd) =>
      if fd.score < opt.2 then ladder calls rest
      else some (combineAtRung calls fd)

/-- `doDetection`'s detection phase for one tick: try the four fixed rungs;
`none` means no sample this tick (never an error to the caller). -/
def doDetection (calls : DetectorCalls) : Option Detection :=
  ladder calls detectionOptions

/-- Whether a rung succeeds: `detectSingleFace` returns (without throwing) a
face whose score meets the rung's threshold. -/
def rungSucceeds (calls : DetectorCalls) (opt : ℕ × ℚ) : Bool :=
  match calls.detectSingleFace opt with
  | Except.ok (some fd) => decide (opt.2 ≤ fd.score)
  | _ => false

/-- The score-recording step of one tick (`scores.current.push(score)` under
`if (detections && detections.detection)`): a successful detection appends
its instantaneous score, a failed tick leaves the list unchanged. -/
def tickScores (scores : List ℤ) (calls : DetectorCalls) : List ℤ :=
  match doDetection calls with
  | some det => scores ++ [scoreFromDetections det]
  | none => scores

/-- Concrete detector face for the witnesses: score 0.3, found only at the
last rung. -/
def lastRungFace : FaceDetection := ⟨3/10, ⟨10, 20, 100, 100⟩⟩

/-- Concrete `DetectorCalls` succeeding only at the loosest rung
(`inputSize` 224), with both sub-calls throwing. -/
def lastRungOnlyCalls : DetectorCalls :=
  ⟨fun opt => if opt.1 = 224 then Except.ok (some lastRungFace) else Except.ok none,
    Except.error (), Except.error ()⟩

/-- The component state relevant to the session lifecycle: the published
final score, the lifecycle flags, the error message, the collected score
list, and whether the sampling interval, the duration timeout and the webcam
stream are currently held.  (The debug console is modelled separately, in
`EngineState`, for the purity analysis of the scorer.) -/
structure SessionState where
  finalScore : Option ℤ
  interviewActive : Bool
  modelsLoaded : Bool
  error : Option String
  webcamReady : Bool
  scores : List ℤ
  intervalArmed : Bool
  timeoutArmed : Bool
  streamActive : Bool
deriving DecidableEq

/-- `startInterview` (lines 69–139) as a state transition.
`webcamRefPresent` is whether `webcamRef.current` is non-null; `camera` is
the outcome of `navigator.mediaDevices.getUserMedia` (`Except.error msg`
models a thrown acquisition error).  The guard clause fires when models are
not loaded (`modelsLoaded` is only set after `faceAPIRef` is populated, so
the two are modelled as one flag); inside the `try`, the error is cleared and
the score list emptied before camera acquisition; on success with a webcam
element present the session becomes active, `runScoring` arms the sampling
interval and the duration timeout is armed; a thrown camera error is caught:
the error message is recorded and `interviewActive` is forced off. -/
def startInterview (s : SessionState) (webcamRefPresent : Bool)
    (camera : Except String Unit) : SessionState :=
  if ¬ s.modelsLoaded then
    { s with error := some "Models not loaded yet" }
  else
    match camera with
    | Except.error msg =>
      { s with scores := [],
               error := some ("Failed to access webcam: " ++ msg),
               interviewActive := false }
    | Except.ok _ =>
      if webcamRefPresent then
        { s with scores := [], error := none, interviewActive := true,
                 webcamReady := true, streamActive := true,
                 intervalArmed := true, timeoutArmed := true }
      else
        { s with scores := [], error := none }

/-- `scores.current.reduce((acc, val) => acc + val, 0)`. -/
def reduceSum (l : List ℤ) : ℤ := l.foldl (· + ·) 0

/-- The final-score computation of `stopInterview` (lines 161–169): the mean
of the collected scores rounded with `Math.round`, or 0 when none were
collected. -/
def finalScoreOf (l : List ℤ) : ℤ :=
  if 0 < l.length then jsRound ((reduceSum l : ℚ) / (l.length : ℚ)) else 0

/-- `stopInterview` (lines 141–181), reached both from the manual stop
button and from the duration timeout: clears the sampling interval and the
duration timeout, computes and publishes the final score, stops the webcam
stream, and resets the readiness/active flags. -/
def stopInterview (s : SessionState) : SessionState :=
  { s with intervalArmed := false, timeoutArmed := false,
           finalScore := some (finalScoreOf s.scores),
           streamActive := false, webcamReady := false,
           interviewActive := false }

/-- Arithmetic mean of a score list, as the spec words it (the reference
side of claim C4). -/
def arithMean (l : List ℤ) : ℚ := ((l.sum : ℤ) : ℚ) / (l.length : ℚ)

/-- A debug-console event recorded through `addDebugInfo`, keeping the
information content of the logged line (string formatting and wall-clock
timestamps abstracted).  `scoreFromDetections` logs exactly one
expression-breakdown line per call (line 414). -/
inductive DebugEvent where
  | expressionBreakdown (neutral happy negative : ℚ)
deriving DecidableEq

/-- JS `prev.slice(-9)`: the last at-most-nine entries. -/
def sliceLastNine (l : List DebugEvent) : List DebugEvent :=
  l.drop (l.length - 9)

/-- The component state a `scoreFromDetections` call can see: the debug
console plus the engine's mutable session data. -/
structure EngineState where
  debugInfo : List DebugEvent
  scores : List ℤ
  finalScore : Option ℤ
  interviewActive : Bool
deriving DecidableEq

/-- `addDebugInfo(message)`: `setDebugInfo(prev => [...prev.slice(-9), msg])`
(the `console.log` side channel is outside the modelled state). -/
def addDebugInfo (s : EngineState) (e : DebugEvent) : EngineState :=
  { s with debugInfo := sliceLastNine s.debugInfo ++ [e] }

/-- One `scoreFromDetections(detection)` call as it actually executes inside
the component: it returns the instantaneous score, and on line 414 it logs
the expression breakdown through `addDebugInfo`, i.e. a `setDebugInfo` state
update. -/
def scoreFromDetectionsRun (s : EngineState) (d : Detection) :
    EngineState × ℤ :=
  (addDebugInfo s
      (DebugEvent.expressionBreakdown (getExpr d.expressions.neutral)
        (getExpr d.expressions.happy)
        (getExpr d.expressions.angry + getExpr d.expressions.sad
          + getExpr d.expressions.disgusted + getExpr d.expressions.fearful)),
    scoreFromDetections d)

/-- Concrete engine state (empty debug console, no scores) for the C7
counterexample. -/
def idleEngine : EngineState := ⟨[], [], none, false⟩

/-- Concrete detection (no expressions, no landmarks) for the C7
counterexample. -/
def plainDetection : Detection := ⟨⟨1/2, ⟨0, 0, 10, 10⟩⟩, emptyExpressions, none⟩

/-- Concrete idle session state for the C8 witness. -/
def idleSession : SessionState :=
  ⟨none, false, true, none, false, [], false, false, false⟩

/-- The score lists the engine can ever hold: `startInterview` resets
`scores.current = []`, and each tick extends the list only through
`tickScores`. -/
inductive ReachableScores : List ℤ → Prop where
  | init : ReachableScores []
  | tick (s : List ℤ) (calls : DetectorCalls) :
      ReachableScores s → ReachableScores (tickScores s calls)

/-- Modelled from the spec: the closed expression-label set (§3).  The
metrics aggregator it feeds is code of this repository that is not under
`src/`; everything below `ExpressionLabel` down to `aggregate` follows the
spec's §3/§4.4 wording. -/
inductive ExpressionLabel where
  | neutral
  | happy
  | sad
  | angry
  | disgusted
  | fearful
  | surprised
deriving DecidableEq

/-- Modelled from the spec: a stored `ClassifiedSample` (§3). -/
structure ClassifiedSample where
  dominantExpression : ExpressionLabel
  dominantConfidence : ℚ
  timestamp : ℚ
deriving DecidableEq

/-- Modelled from the spec: the aggregator output record (§3). -/
structure MetricsSnapshot where
  overallScore : ℤ
  stability : ℤ
  engagement : ℤ
  composure : ℤ
  authenticity : ℤ
deriving DecidableEq

/-- The all-zero snapshot returned on insufficient data. -/
def zeroSnapshot : MetricsSnapshot := ⟨0, 0, 0, 0, 0⟩

/-- The fixed label universe, in the spec's order. -/
def allLabels : List ExpressionLabel :=
  [.neutral, .happy, .sad, .angry, .disgusted, .fearful, .surprised]

/-- Occurrences of one dominant label among samples. -/
def countLabel (samples : List ClassifiedSample) (lab : ExpressionLabel) : ℕ :=
  (samples.filter (fun s => s.dominantExpression = lab)).length

/-- Labels ordered by descending frequency in the samples (ties keep the
fixed label order). -/
def labelsByFrequency (samples : List ClassifiedSample) : List ExpressionLabel :=
  List.insertionSort (fun a b => countLabel samples b ≤ countLabel samples a) allLabels

/-- Modelled from the spec: `aggregate(samples) → MetricsSnapshot` (§4.4).
At least 10 samples are required, otherwise the all-zero snapshot is
returned (insufficient data, not an error).  Sub-metrics are computed over
the `recent` 30-second sub-window; every output is rounded to the nearest
integer; the overall score is the unweighted mean of the four sub-metrics. -/
def aggregate (now : ℚ) (samples : List ClassifiedSample) : MetricsSnapshot :=
  if samples.length < 10 then zeroSnapshot
  else
    let recent := samples.filter (fun s => now - s.timestamp < 30000)
    let n : ℚ := recent.length
    let frac := fun (lab : ExpressionLabel) => (countLabel recent lab : ℚ) / n
    let stabilityContribution := fun (lab : ExpressionLabel) =>
      if lab = .neutral ∨ lab = .happy then frac lab * 100
      else max 0 (frac lab * 50 - 20)
    let top3 := (labelsByFrequency recent).take 3
    let stability := min 100 (max 0 (top3.map stabilityContribution).sum)
    let positive := ((recent.filter (fun s =>
        (s.dominantExpression = .happy ∨ s.dominantExpression = .surprised)
          ∧ 3/5 < s.dominantConfidence)).length : ℚ) / n
    let neutralFrac := frac .neutral
    let engagement := min 100 ((positive + neutralFrac * (7/10)) * 120)
    let negativeFrac := ((recent.filter (fun s =>
        s.dominantExpression = .angry ∨ s.dominantExpression = .fearful
          ∨ s.dominantExpression = .disgusted ∨ s.dominantExpression = .sad)).length : ℚ) / n
    let composure := max 0 (100 - negativeFrac * 200)
    let avgConfidence := (recent.map (fun s => s.dominantConfidence)).sum / n
    let confidenceScore := min 100 (avgConfidence * 120)
    let variety := (recent.map (fun s => s.dominantExpression)).dedup.length
    let varietyScore : ℚ :=
      if variety = 2 ∨ variety = 3 ∨ variety = 4 then 100
      else if variety = 1 then 60
      else max 20 (100 - ((variety : ℚ) - 4) * 15)
    let authenticity := (confidenceScore + varietyScore) / 2
    let overall := (stability + engagement + composure + authenticity) / 4
    ⟨jsRound overall, jsRound stability, jsRound engagement, jsRound composure,
      jsRound authenticity⟩

end EyeTracker

namespace EyeTracker

/-- Any clamped value `max 10 (min 100 n)` lies in `[10, 100]`. -/
theorem clamp_mem (n : ℤ) : 10 ≤ max 10 (min 100 n) ∧ max 10 (min 100 n) ≤ 100 :=
  ⟨le_max_left _ _, max_le (by norm_num) (min_le_left _ _)⟩

/-- Helper: `scoreFromDetections` always lands in `[10, 100]`. -/
theorem scoreFromDetections_range (d : Detection) :
    10 ≤ scoreFromDetections d ∧ scoreFromDetections d ≤ 100 := by
  unfold scoreFromDetections
  exact clamp_mem _

/-- C1: for every detection input, `scoreFromDetections` coincides with the
spec's reference definition: base 50, additive expression weights
(neutral 25, happy 15, surprised 5, negative bundle −20), ±alignment
adjustment by offset magnitude when an offset is available, rounded and
clamped to `[10, 100]`, with missing expression probabilities read as 0. -/
theorem scoreFromDetections_eq_specScore (d : Detection) :
    scoreFromDetections d =
      specScore (getExpr d.expressions.neutral) (getExpr d.expressions.happy)
        (getExpr d.expressions.sad) (getExpr d.expressions.angry)
        (getExpr d.expressions.disgusted) (getExpr d.expressions.fearful)
        (getExpr d.expressions.surprised) (alignmentOffsetOf d) := by
  unfold scoreFromDetections specScore alignmentOffsetOf exprRawScore
  cases halt : alignmentTry d with
  | error e => rfl
  | ok o => cases o <;> rfl

/-- C2: for every detection input, the returned score is an integer in
`[10, 100]`: never below 10 and never above 100. -/
theorem scoreFromDetections_bounded (d : Detection) :
    10 ≤ scoreFromDetections d ∧ scoreFromDetections d ≤ 100 :=
  scoreFromDetections_range d

/-- C9: `scoreFromDetections` is total on arbitrary landmark data — even
when the landmark block throws (malformed entry) the exception is caught and
a score in `[10, 100]` is still returned — and whenever the landmark data
yields no alignment value the result is exactly the expression-only score. -/
theorem scoreFromDetections_total_and_landmark_fallback (d : Detection) :
    (10 ≤ scoreFromDetections d ∧ scoreFromDetections d ≤ 100) ∧
      ((alignmentTry d = Except.error () ∨ alignmentTry d = Except.ok none) →
        scoreFromDetections d = expressionOnlyScore d) := by
  refine ⟨scoreFromDetections_range d, fun h => ?_⟩
  unfold scoreFromDetections expressionOnlyScore
  rcases h with h | h <;> rw [h]

/-- Witness for C9 at a concrete malformed input: the nose-tip entry is
malformed (its coordinate read throws), yet the score is defined and equals
the expression-only score. -/
theorem scoreFromDetections_total_and_landmark_fallback_witness :
    (alignmentTry
        ⟨⟨9/10, ⟨0, 0, 100, 100⟩⟩, emptyExpressions,
          some ⟨List.replicate 40 none⟩⟩ = Except.error () ∨
      alignmentTry
        ⟨⟨9/10, ⟨0, 0, 100, 100⟩⟩, emptyExpressions,
          some ⟨List.replicate 40 none⟩⟩ = Except.ok none) ∧
    scoreFromDetections
        ⟨⟨9/10, ⟨0, 0, 100, 100⟩⟩, emptyExpressions,
          some ⟨List.replicate 40 none⟩⟩ =
      expressionOnlyScore
        ⟨⟨9/10, ⟨0, 0, 100, 100⟩⟩, emptyExpressions,
          some ⟨List.replicate 40 none⟩⟩ :=
  ⟨Or.inl rfl,
    (scoreFromDetections_total_and_landmark_fallback _).2 (Or.inl rfl)⟩

end EyeTracker

namespace EyeTracker

/-- Skipping one rung: if a rung does not succeed, the loop continues with
the remaining rungs. -/
theorem ladder_skip (calls : DetectorCalls) (opt : ℕ × ℚ) (rest : List (ℕ × ℚ))
    (h : rungSucceeds calls opt = false) :
    ladder calls (opt :: rest) = ladder calls rest := by
  cases hd : calls.detectSingleFace opt with
  | error e => simp [ladder, hd]
  | ok o =>
    cases o with
    | none => simp [ladder, hd]
    | some fd =>
      rw [rungSucceeds, hd] at h
      simp only [decide_eq_false_iff_not, not_le] at h
      simp [ladder, hd, h]

/-- If no rung succeeds, the loop yields no detection. -/
theorem ladder_none (calls : DetectorCalls) (opts : List (ℕ × ℚ))
    (h : ∀ o ∈ opts, rungSucceeds calls o = false) :
    ladder calls opts = none := by
  induction opts with
  | nil => rfl
  | cons o os ih =>
    rw [ladder_skip calls o os (h o (by simp))]
    exact ih (fun x hx => h x (by simp [hx]))

/-- The loop stops at the first succeeding rung and returns the combined
detection built from that rung's face. -/
theorem ladder_first (calls : DetectorCalls) (fd : FaceDetection)
    (opts₁ : List (ℕ × ℚ)) (opt : ℕ × ℚ) (opts₂ : List (ℕ × ℚ))
    (hfail : ∀ o ∈ opts₁, rungSucceeds calls o = false)
    (hdet : calls.detectSingleFace opt = Except.ok (some fd))
    (hscore : opt.2 ≤ fd.score) :
    ladder calls (opts₁ ++ opt :: opts₂) = some (combineAtRung calls fd) := by
  induction opts₁ with
  | nil =>
    show ladder calls (opt :: opts₂) = _
    simp [ladder, hdet, not_lt.2 hscore]
  | cons o os ih =>
    rw [List.cons_append, ladder_skip calls o _ (hfail o (by simp))]
    exact ih (fun x hx => hfail x (by simp [hx]))

/-- C3: the adaptive detection step tries the rungs
`(512, 0.5), (416, 0.4), (320, 0.3), (224, 0.2)` in order and stops at the
first rung whose result meets that rung's threshold; if no rung succeeds the
tick yields no detection (`none`, never an error). -/
theorem doDetection_first_success (calls : DetectorCalls) :
    ((∀ opt ∈ detectionOptions, rungSucceeds calls opt = false) →
      doDetection calls = none) ∧
    (∀ opts₁ opt opts₂ fd, detectionOptions = opts₁ ++ opt :: opts₂ →
      (∀ o ∈ opts₁, rungSucceeds calls o = false) →
      calls.detectSingleFace opt = Except.ok (some fd) →
      opt.2 ≤ fd.score →
      doDetection calls = some (combineAtRung calls fd)) := by
  constructor
  · intro h
    exact ladder_none calls detectionOptions h
  · intro opts₁ opt opts₂ fd hsplit hfail hdet hscore
    rw [doDetection, hsplit]
    exact ladder_first calls fd opts₁ opt opts₂ hfail hdet hscore

/-- Witness for C3: a detector that only succeeds at the loosest rung
(`inputSize` 224, threshold 0.2) still yields a usable detection. -/
theorem doDetection_first_success_witness :
    doDetection lastRungOnlyCalls =
      some (combineAtRung lastRungOnlyCalls lastRungFace) :=
  (doDetection_first_success lastRungOnlyCalls).2
    [(512, 1/2), (416, 2/5), (320, 3/10)] (224, 1/5) [] lastRungFace
    rfl (by decide) rfl (by norm_num [lastRungFace])

/-- C5: once a face is accepted at some rung, a throwing (or empty-result)
expression sub-call degrades to the empty expressions bag and a throwing
(or empty-result) landmark sub-call degrades to absent landmarks; the
detection still succeeds and the tick still records a score. -/
theorem doDetection_subcall_failure (calls : DetectorCalls)
    (opts₁ : List (ℕ × ℚ)) (opt : ℕ × ℚ) (opts₂ : List (ℕ × ℚ))
    (fd : FaceDetection) (scores : List ℤ)
    (hsplit : detectionOptions = opts₁ ++ opt :: opts₂)
    (hfail : ∀ o ∈ opts₁, rungSucceeds calls o = false)
    (hdet : calls.detectSingleFace opt = Except.ok (some fd))
    (hscore : opt.2 ≤ fd.score) :
    doDetection calls = some (combineAtRung calls fd) ∧
    ((calls.detectFaceExpressions = Except.error () ∨
        calls.detectFaceExpressions = Except.ok []) →
      (combineAtRung calls fd).expressions = emptyExpressions) ∧
    ((calls.detectFaceLandmarks = Except.error () ∨
        calls.detectFaceLandmarks = Except.ok []) →
      (combineAtRung calls fd).landmarks = none) ∧
    tickScores scores calls = scores ++ [scoreFromDetections (combineAtRung calls fd)] := by
  have hdo : doDetection calls = some (combineAtRung calls fd) := by
    rw [doDetection, hsplit]
    exact ladder_first calls fd opts₁ opt opts₂ hfail hdet hscore
  refine ⟨hdo, ?_, ?_, ?_⟩
  · rintro (h | h) <;> simp [combineAtRung, h]
  · rintro (h | h) <;> simp [combineAtRung, h]
  · simp [tickScores, hdo]

/-- Witness for C5: with both sub-calls throwing, the combined detection has
empty expressions and absent landmarks, and the tick appends a score. -/
theorem doDetection_subcall_failure_witness :
    doDetection lastRungOnlyCalls =
      some (combineAtRung lastRungOnlyCalls lastRungFace) ∧
    (combineAtRung lastRungOnlyCalls lastRungFace).expressions = emptyExpressions ∧
    (combineAtRung lastRungOnlyCalls lastRungFace).landmarks = none ∧
    tickScores [] lastRungOnlyCalls =
      [scoreFromDetections (combineAtRung lastRungOnlyCalls lastRungFace)] := by
  have h := doDetection_subcall_failure lastRungOnlyCalls
    [(512, 1/2), (416, 2/5), (320, 3/10)] (224, 1/5) [] lastRungFace []
    rfl (by decide) rfl (by norm_num [lastRungFace])
  exact ⟨h.1, h.2.1 (Or.inl rfl), h.2.2.1 (Or.inl rfl), by simpa using h.2.2.2⟩

end EyeTracker

namespace EyeTracker

/-- The JS `reduce` with `+` and initial 0 computes the list sum. -/
theorem reduceSum_eq_sum (l : List ℤ) : reduceSum l = l.sum := by
  have key : ∀ (xs : List ℤ) (a : ℤ), xs.foldl (· + ·) a = a + xs.sum := by
    intro xs
    induction xs with
    | nil => intro a; simp
    | cons x ys ih =>
      intro a
      simp only [List.foldl_cons, List.sum_cons, ih]
      ring
  simpa using key l 0

/-- Lower bound through `Math.round`. -/
theorem le_jsRound (q : ℚ) (a : ℤ) (h : (a : ℚ) ≤ q) : a ≤ jsRound q := by
  rw [jsRound]
  exact Int.le_floor.mpr (by linarith)

/-- Upper bound through `Math.round` (an integer bound survives adding the
half before flooring). -/
theorem jsRound_le (q : ℚ) (b : ℤ) (h : q ≤ (b : ℚ)) : jsRound q ≤ b := by
  rw [jsRound]
  have hlt : ⌊q + 1/2⌋ < b + 1 := Int.floor_lt.mpr (by push_cast; linarith)
  omega

/-- The rounded mean of a list of integers in `[10, 100]` is in `[10, 100]`. -/
theorem finalScoreOf_range (l : List ℤ) (hne : 0 < l.length)
    (hall : ∀ x ∈ l, 10 ≤ x ∧ x ≤ 100) :
    10 ≤ finalScoreOf l ∧ finalScoreOf l ≤ 100 := by
  have hlo : (10 : ℤ) * l.length ≤ l.sum := by
    have := List.card_nsmul_le_sum l (10 : ℤ) (fun x hx => (hall x hx).1)
    simpa [nsmul_eq_mul, mul_comm] using this
  have hhi : l.sum ≤ (100 : ℤ) * l.length := by
    have := List.sum_le_card_nsmul l (100 : ℤ) (fun x hx => (hall x hx).2)
    simpa [nsmul_eq_mul, mul_comm] using this
  have hLpos : (0 : ℚ) < (l.length : ℚ) := by exact_mod_cast hne
  have hmean_lo : (10 : ℚ) ≤ (l.sum : ℚ) / (l.length : ℚ) := by
    rw [le_div_iff₀ hLpos]
    exact_mod_cast hlo
  have hmean_hi : (l.sum : ℚ) / (l.length : ℚ) ≤ (100 : ℚ) := by
    rw [div_le_iff₀ hLpos]
    exact_mod_cast hhi
  rw [finalScoreOf, if_pos hne, reduceSum_eq_sum]
  exact ⟨le_jsRound _ _ (by exact_mod_cast hmean_lo),
    jsRound_le _ _ (by exact_mod_cast hmean_hi)⟩

/-- C4: stopping the session (manually or via the duration timeout)
publishes as final score the rounded arithmetic mean of all collected
per-tick scores, and exactly 0 when none were collected — in every case a
defined integer (`some`-valued, never null). -/
theorem stopInterview_final_is_rounded_mean (s : SessionState) :
    (stopInterview s).finalScore =
      some (if s.scores.length = 0 then 0 else jsRound (arithMean s.scores)) ∧
    ((stopInterview s).finalScore).isSome = true := by
  constructor
  · by_cases h : s.scores.length = 0
    · simp [stopInterview, finalScoreOf, h]
    · have hpos : 0 < s.scores.length := Nat.pos_of_ne_zero h
      simp [stopInterview, finalScoreOf, h, hpos, arithMean, reduceSum_eq_sum]
  · rfl

/-- C6: with fewer than 10 classified samples in the retained window, the
aggregator returns the all-zero snapshot as a defined insufficient-data
result, not an error. -/
theorem aggregate_insufficient_data (now : ℚ) (samples : List ClassifiedSample)
    (h : samples.length < 10) : aggregate now samples = ⟨0, 0, 0, 0, 0⟩ := by
  rw [aggregate, if_pos h]
  rfl

/-- Witness for C6 at the empty sample list. -/
theorem aggregate_insufficient_data_witness :
    (List.length ([] : List ClassifiedSample) < 10) ∧
      aggregate 0 [] = ⟨0, 0, 0, 0, 0⟩ :=
  ⟨by decide, aggregate_insufficient_data 0 [] (by decide)⟩

/-- Counterexample for C7 as stated: one `scoreFromDetections` call does
change mutable component state — it appends its expression-breakdown line to
the debug console via `addDebugInfo` (line 414). -/
theorem scoreFromDetectionsRun_changes_state :
    (scoreFromDetectionsRun idleEngine plainDetection).1 ≠ idleEngine := by
  decide

/-- C7 (amended): the returned score is a pure, deterministic function of
the detection alone — the same on any two component states — and the call
leaves the collected score list, the final score and the session-active flag
unchanged; its only state effect is appending one expression-breakdown entry
to the debug console. -/
theorem scoreFromDetectionsRun_pure_outside_debug_log
    (s t : EngineState) (d : Detection) :
    (scoreFromDetectionsRun s d).2 = scoreFromDetections d ∧
    (scoreFromDetectionsRun s d).2 = (scoreFromDetectionsRun t d).2 ∧
    (scoreFromDetectionsRun s d).1.scores = s.scores ∧
    (scoreFromDetectionsRun s d).1.finalScore = s.finalScore ∧
    (scoreFromDetectionsRun s d).1.interviewActive = s.interviewActive ∧
    (scoreFromDetectionsRun s d).1.debugInfo =
      sliceLastNine s.debugInfo ++
        [DebugEvent.expressionBreakdown (getExpr d.expressions.neutral)
          (getExpr d.expressions.happy)
          (getExpr d.expressions.angry + getExpr d.expressions.sad
            + getExpr d.expressions.disgusted + getExpr d.expressions.fearful)] :=
  ⟨rfl, rfl, rfl, rfl, rfl, rfl⟩

/-- C8: whenever starting fails to acquire a required resource — models not
loaded, or camera acquisition throwing — `startInterview` records an error
message, and starting from an idle state the session stays out of `running`:
`interviewActive` is false and neither the sampling interval nor the
duration timeout gets armed. -/
theorem startInterview_failure (s : SessionState) (webcamRefPresent : Bool)
    (camera : Except String Unit)
    (hIdle : s.interviewActive = false) (hInt : s.intervalArmed = false)
    (hTim : s.timeoutArmed = false)
    (hfail : s.modelsLoaded = false ∨ ∃ msg, camera = Except.error msg) :
    ((startInterview s webcamRefPresent camera).error).isSome = true ∧
    (startInterview s webcamRefPresent camera).interviewActive = false ∧
    (startInterview s webcamRefPresent camera).intervalArmed = false ∧
    (startInterview s webcamRefPresent camera).timeoutArmed = false := by
  rcases hfail with h | ⟨msg, h⟩
  · simp [startInterview, h, hIdle, hInt, hTim]
  · by_cases hm : s.modelsLoaded
    · simp [startInterview, h, hm, hInt, hTim]
    · simp [startInterview, hm, hIdle, hInt, hTim]

/-- Witness for C8: starting from the idle state with a throwing camera
acquisition reports an error and arms nothing. -/
theorem startInterview_failure_witness :
    ((startInterview idleSession false (Except.error "denied")).error).isSome = true ∧
    (startInterview idleSession false (Except.error "denied")).interviewActive = false ∧
    (startInterview idleSession false (Except.error "denied")).intervalArmed = false ∧
    (startInterview idleSession false (Except.error "denied")).timeoutArmed = false :=
  startInterview_failure idleSession false (Except.error "denied")
    rfl rfl rfl (Or.inr ⟨"denied", rfl⟩)

/-- C10: every score list the engine can reach holds only outputs of
`scoreFromDetections`, hence integers in `[10, 100]`; consequently a session
that collected at least one measurement finalizes to an integer in
`[10, 100]`. -/
theorem reachable_scores_bounded (s : List ℤ) (h : ReachableScores s) :
    (∀ x ∈ s, 10 ≤ x ∧ x ≤ 100) ∧
    (0 < s.length → 10 ≤ finalScoreOf s ∧ finalScoreOf s ≤ 100) := by
  have hmem : ∀ x ∈ s, 10 ≤ x ∧ x ≤ 100 := by
    induction h with
    | init => intro x hx; cases hx
    | tick s calls _ ih =>
      intro x hx
      rw [tickScores] at hx
      cases hdo : doDetection calls with
      | none => rw [hdo] at hx; exact ih x hx
      | some det =>
        rw [hdo] at hx
        rcases List.mem_append.mp hx with hx | hx
        · exact ih x hx
        · rcases List.mem_singleton.mp hx with rfl
          exact scoreFromDetections_range det
  exact ⟨hmem, fun hpos => finalScoreOf_range s hpos hmem⟩

/-- Witness for C10: the reachable one-tick score list of the concrete
last-rung detector is bounded, and so is its finalized score. -/
theorem reachable_scores_bounded_witness :
    (∀ x ∈ tickScores [] lastRungOnlyCalls, 10 ≤ x ∧ x ≤ 100) ∧
    (0 < (tickScores [] lastRungOnlyCalls).length →
      10 ≤ finalScoreOf (tickScores [] lastRungOnlyCalls) ∧
        finalScoreOf (tickScores [] lastRungOnlyCalls) ≤ 100) :=
  reachable_scores_bounded (tickScores [] lastRungOnlyCalls)
    (ReachableScores.tick [] lastRungOnlyCalls ReachableScores.init)

end EyeTracker
